import Mathlib

/-!
Verification of the SCCmecFinder classification and report-synthesis engine
(`SCCmecFinder_v4.py`).  The pure core of the program is embedded shallowly:
Python sets of strings are represented as `List String` (list order stands in
for the unspecified iteration order of a Python set; all decision logic is
membership-based and therefore order-independent, while the textual joins
depend on the order, exactly as in the original).  Python `str.split` on a
single-character separator, `str.startswith` and `in` are modelled by
executable functions over `List Char`.  The numeric value `float(Score)` used
as a sort key is modelled by a rational field `Score`; the printed column keeps
its original string form in `ScoreStr`.  Falling off the end of a Python list
index (`IndexError`) is modelled by `Except.error`.
-/

namespace SCCmecFinder

/-- Reference gene-identifier sets for each SCCmec type (`SCCMEC_DEFINITIONS`
table of the source, values listed in the literal order of the source). -/
def SCCMEC_DEFINITIONS : List (String × List String) :=
  [("SCCmec_type_I(1B)", ["ccrA1", "ccrB1", "mecA", "dmecR1", "IS1272"]),
   ("SCCmec_type_II(2A)", ["ccrA2", "ccrB2", "mecA", "mecR1", "mecI"]),
   ("SCCmec_type_III(3A)", ["ccrA3", "ccrB3", "mecA", "mecR1", "mecI"]),
   ("SCCmec_type_IV(2B)", ["ccrA2", "ccrB2", "mecA", "dmecR1", "IS1272"]),
   ("SCCmec_type_IV(2B&5)", ["ccrA2", "ccrB2", "ccrC11", "mecA", "dmecR1", "IS1272"]),
   ("SCCmec_type_V(5C2)", ["ccrC11", "mec-class-C2", "mecA"]),
   ("SCCmec_type_V(5C2&5)", ["ccrC11", "ccrC12", "mec-class-C2", "mecA"]),
   ("SCCmec_type_VI(4B)", ["ccrA4", "ccrB4", "mecA", "dmecR1", "IS1272"]),
   ("SCCmec_type_VII(5C1)", ["ccrC11", "mec-class-C1", "mecA"]),
   ("SCCmec_type_VIII(4A)", ["ccrA4", "ccrB4", "mecA", "mecR1", "mecI"]),
   ("SCCmec_type_IX(1C2)", ["ccrA1", "ccrB1", "mec-class-C2", "mecA"]),
   ("SCCmec_type_X(7C1)", ["ccrA1", "ccrB6", "mec-class-C1", "mecA"]),
   ("SCCmec_type_XI(8E)", ["ccrA1", "ccrB3", "mecC", "mecR1", "mecI"]),
   ("SCCmec_type_XII(9C2)", ["ccrC21", "mec-class-C2", "mecA"]),
   ("SCCmec_type_XIII(9A)", ["ccrC21", "mecA", "dmecR1", "IS1272"])]

/-- Reference complex-class sets for each SCCmec type (`SCCMEC_CLASSES` table
of the source). -/
def SCCMEC_CLASSES : List (String × List String) :=
  [("SCCmec_type_I(1B)", ["ccr class 1", "mec class B"]),
   ("SCCmec_type_II(2A)", ["ccr class 2", "mec class A"]),
   ("SCCmec_type_III(3A)", ["ccr class 3", "mec class A"]),
   ("SCCmec_type_IV(2B)", ["ccr class 2", "mec class B"]),
   ("SCCmec_type_IV(2B&5)", ["ccr class 5", "ccr class 2", "mec class B"]),
   ("SCCmec_type_V(5C2)", ["ccr class 5", "mec class C2"]),
   ("SCCmec_type_V(5C2&5)", ["ccr class 5&5", "mec class C2"]),
   ("SCCmec_type_VI(4B)", ["ccr class 4", "mec class B"]),
   ("SCCmec_type_VII(5C1)", ["ccr class 5", "mec class C1"]),
   ("SCCmec_type_VIII(4A)", ["ccr class 4", "mec class A"]),
   ("SCCmec_type_IX(1C2)", ["ccr class 1", "mec class C2"]),
   ("SCCmec_type_X(7C1)", ["ccr class 7", "mec class C1"]),
   ("SCCmec_type_XI(8E)", ["ccr class 8", "mec class E"]),
   ("SCCmec_type_XII(9C2)", ["ccr class 9", "mec class C2"]),
   ("SCCmec_type_XIII(9A)", ["ccr class 9", "mec class A"])]

/-- Python `g.startswith(p)`, via the character lists of the strings. -/
def strStarts (s p : String) : Bool :=
  p.toList.isPrefixOf s.toList

/-- Python `s.split(c)` for a single-character separator `c`: splits on every
occurrence, keeping empty segments, and returns `[s]` when `c` does not
occur. -/
def strSplit (c : Char) (s : String) : List String :=
  (s.toList.splitOn c).map (fun l => String.mk l)

/-- Python `c in s` for a single character `c`. -/
def strHasChar (s : String) (c : Char) : Bool :=
  s.toList.contains c

/-- Python `sep.join(l)`. -/
def joinSep (sep : String) : List String → String
  | [] => ""
  | [x] => x
  | x :: y :: xs => x ++ sep ++ joinSep sep (y :: xs)

/-- Python set difference `a - b`, on the list representation of the sets:
keeps the elements of `a` not in `b`, in the order of `a`. -/
def listDiff (a b : List String) : List String :=
  a.filter (fun x => decide (x ∉ b))

/-- Python set union `a | b`, on the list representation of the sets. -/
def listUnion (a b : List String) : List String :=
  a ++ b.filter (fun x => decide (x ∉ a))

/-- Python `set.add`, on the list representation of a set. -/
def addGene (l : List String) (g : String) : List String :=
  if g ∈ l then l else l ++ [g]

/-- Lookup in one of the two reference tables, Python
`table.get(key, set())`. -/
def tableGet (tbl : List (String × List String)) (k : String) : List String :=
  match tbl.find? (fun p => p.1 == k) with
  | some p => p.2
  | none => []

/-- Source `perform_ccr_gene_complex_typing`: CCR complex classes from the
detected ccrAB / ccrC gene sets.  Each `if` of the source appends one label;
the `ccr class 5&5` / `ccr class 5` pair is the one `elif`. -/
def perform_ccr_gene_complex_typing (ccrAB_genes ccrC_genes : List String) : List String :=
  (if "ccrA1" ∈ ccrAB_genes ∧ "ccrB1" ∈ ccrAB_genes then ["ccr class 1"] else []) ++
  (if "ccrA2" ∈ ccrAB_genes ∧ "ccrB2" ∈ ccrAB_genes then ["ccr class 2"] else []) ++
  (if "ccrC11" ∈ ccrC_genes ∧ "ccrC12" ∈ ccrC_genes then ["ccr class 5&5"]
   else if "ccrC11" ∈ ccrC_genes then ["ccr class 5"] else []) ++
  (if "ccrA3" ∈ ccrAB_genes ∧ "ccrB3" ∈ ccrAB_genes then ["ccr class 3"] else []) ++
  (if "ccrA4" ∈ ccrAB_genes ∧ "ccrB4" ∈ ccrAB_genes then ["ccr class 4"] else []) ++
  (if "ccrA5" ∈ ccrAB_genes ∧ "ccrB3" ∈ ccrAB_genes then ["ccr class 6"] else []) ++
  (if "ccrA1" ∈ ccrAB_genes ∧ "ccrB6" ∈ ccrAB_genes then ["ccr class 7"] else []) ++
  (if "ccrA1" ∈ ccrAB_genes ∧ "ccrB3" ∈ ccrAB_genes then ["ccr class 8"] else []) ++
  (if "ccrC21" ∈ ccrC_genes then ["ccr class 9"] else [])

/-- Source `perform_mec_gene_complex_typing`: MEC complex classes from the
detected mec gene set. -/
def perform_mec_gene_complex_typing (mec_genes : List String) : List String :=
  (if "mecA" ∈ mec_genes ∧ "mecR1" ∈ mec_genes ∧ "mecI" ∈ mec_genes then ["mec class A"] else []) ++
  (if "mecA" ∈ mec_genes ∧ "dmecR1" ∈ mec_genes ∧ "IS1272" ∈ mec_genes then ["mec class B"] else []) ++
  (if "mecA" ∈ mec_genes ∧ "mec-class-C1" ∈ mec_genes then ["mec class C1"] else []) ++
  (if "mecA" ∈ mec_genes ∧ "mec-class-C2" ∈ mec_genes then ["mec class C2"] else []) ++
  (if "mecC" ∈ mec_genes ∧ "mecR1" ∈ mec_genes ∧ "mecI" ∈ mec_genes then ["mec class E"] else [])

/-- Source `perform_sccmec_typing`: candidate SCCmec types from the combined
complex-class set, in rule-table order; `SCCmec_type_IV(2B&5)` takes the one
`elif` precedence over `SCCmec_type_IV(2B)`. -/
def perform_sccmec_typing (classes : List String) : List String :=
  (if "ccr class 1" ∈ classes ∧ "mec class B" ∈ classes then ["SCCmec_type_I(1B)"] else []) ++
  (if "ccr class 2" ∈ classes ∧ "mec class A" ∈ classes then ["SCCmec_type_II(2A)"] else []) ++
  (if "ccr class 3" ∈ classes ∧ "mec class A" ∈ classes then ["SCCmec_type_III(3A)"] else []) ++
  (if "ccr class 2" ∈ classes ∧ "ccr class 5" ∈ classes ∧ "mec class B" ∈ classes then
     ["SCCmec_type_IV(2B&5)"]
   else if "ccr class 2" ∈ classes ∧ "mec class B" ∈ classes then ["SCCmec_type_IV(2B)"] else []) ++
  (if "ccr class 5" ∈ classes ∧ "mec class C2" ∈ classes then ["SCCmec_type_V(5C2)"] else []) ++
  (if "ccr class 5&5" ∈ classes ∧ "mec class C2" ∈ classes then ["SCCmec_type_V(5C2&5)"] else []) ++
  (if "ccr class 4" ∈ classes ∧ "mec class B" ∈ classes then ["SCCmec_type_VI(4B)"] else []) ++
  (if "ccr class 5" ∈ classes ∧ "mec class C1" ∈ classes then ["SCCmec_type_VII(5C1)"] else []) ++
  (if "ccr class 4" ∈ classes ∧ "mec class A" ∈ classes then ["SCCmec_type_VIII(4A)"] else []) ++
  (if "ccr class 1" ∈ classes ∧ "mec class C2" ∈ classes then ["SCCmec_type_IX(1C2)"] else []) ++
  (if "ccr class 7" ∈ classes ∧ "mec class C1" ∈ classes then ["SCCmec_type_X(7C1)"] else []) ++
  (if "ccr class 8" ∈ classes ∧ "mec class E" ∈ classes then ["SCCmec_type_XI(8E)"] else []) ++
  (if "ccr class 9" ∈ classes ∧ "mec class C2" ∈ classes then ["SCCmec_type_XII(9C2)"] else []) ++
  (if "ccr class 9" ∈ classes ∧ "mec class A" ∈ classes then ["SCCmec_type_XIII(9A)"] else [])

/-- The 15 typing rules as data: type label paired with the required
complex-class subset tested by the corresponding condition of
`perform_sccmec_typing`, in rule-table order. -/
def SCCMEC_RULES : List (String × List String) :=
  [("SCCmec_type_I(1B)", ["ccr class 1", "mec class B"]),
   ("SCCmec_type_II(2A)", ["ccr class 2", "mec class A"]),
   ("SCCmec_type_III(3A)", ["ccr class 3", "mec class A"]),
   ("SCCmec_type_IV(2B&5)", ["ccr class 2", "ccr class 5", "mec class B"]),
   ("SCCmec_type_IV(2B)", ["ccr class 2", "mec class B"]),
   ("SCCmec_type_V(5C2)", ["ccr class 5", "mec class C2"]),
   ("SCCmec_type_V(5C2&5)", ["ccr class 5&5", "mec class C2"]),
   ("SCCmec_type_VI(4B)", ["ccr class 4", "mec class B"]),
   ("SCCmec_type_VII(5C1)", ["ccr class 5", "mec class C1"]),
   ("SCCmec_type_VIII(4A)", ["ccr class 4", "mec class A"]),
   ("SCCmec_type_IX(1C2)", ["ccr class 1", "mec class C2"]),
   ("SCCmec_type_X(7C1)", ["ccr class 7", "mec class C1"]),
   ("SCCmec_type_XI(8E)", ["ccr class 8", "mec class E"]),
   ("SCCmec_type_XII(9C2)", ["ccr class 9", "mec class C2"]),
   ("SCCmec_type_XIII(9A)", ["ccr class 9", "mec class A"])]

/-- One record of the parsed k-mer matcher results (`kmer_results[name]`).
`Score` is the rational value of `float(Score)` used as the sort key;
`ScoreStr` is the original `Score` column text printed in the table. -/
structure KmerData where
  Score : ℚ
  ScoreStr : String
  Expected : String
  z : String
  p_value : String
  query_coverage : String
  template_coverage : String
  depth : String
  Kmers_in_Template : String
  Description : String
deriving DecidableEq

/-- The gene evidence accumulated while parsing the identity-matcher table:
the four gene sets (as lists in insertion order) and the `mrsa_gene`
scalar. -/
structure GeneEvidence where
  ccrAB_genes : List String
  ccrC_genes : List String
  mec_genes : List String
  subtyping_genes : List String
  mrsa_gene : String
deriving DecidableEq

/-- The gene token of a pre-split identity-matcher row:
`parts[0].split(':')[0]`. -/
def rowGene (parts : List String) : String :=
  (strSplit ':' (parts.headD "")).headD ""

/-- One iteration of the MyDbFinder parsing loop of `main` on a pre-split
row (the line stripped and split on tab characters): rows with fewer than 4 columns are skipped,
otherwise the gene token is routed by its prefix and the `mrsa_gene` scalar is
overwritten on the three marker patterns. -/
def parseDbRow (e : GeneEvidence) (parts : List String) : GeneEvidence :=
  if parts.length < 4 then e
  else
    let gene := rowGene parts
    if strStarts gene "ccr" then
      if strStarts gene "ccrA" || strStarts gene "ccrB" then
        { e with ccrAB_genes := addGene e.ccrAB_genes gene }
      else if strStarts gene "ccrC" then
        { e with ccrC_genes := addGene e.ccrC_genes gene }
      else e
    else if strStarts gene "mec" || strStarts gene "IS" || strStarts gene "dme" then
      let e1 := { e with mec_genes := addGene e.mec_genes gene }
      if strStarts gene "mecALGA251" then { e1 with mrsa_gene := "mecALGA251" }
      else if strStarts gene "mecA" then { e1 with mrsa_gene := "mecA" }
      else if strStarts gene "mec-class" then { e1 with mrsa_gene := "mecA" }
      else e1
    else if strStarts gene "sub" then
      { e with subtyping_genes := addGene e.subtyping_genes ((strSplit '|' gene).headD gene) }
    else e

/-- The empty evidence state the parsing loop starts from. -/
def emptyEvidence : GeneEvidence :=
  { ccrAB_genes := [], ccrC_genes := [], mec_genes := [], subtyping_genes := [], mrsa_gene := "" }

/-- The whole MyDbFinder parsing loop over the data rows (header already
skipped by `next(f, None)` in the source). -/
def parseDbFinder (rows : List (List String)) : GeneEvidence :=
  rows.foldl parseDbRow emptyEvidence

/-- Claim-side characterisation: whether a row sets the resistance marker.
A row does so exactly when it survives the column-count guard and its gene
token starts with one of the three marker patterns (`mecALGA251`, `mecA`,
`mec-class`); each of those prefixes routes the token into the mec branch of
the parser. -/
def isMarkerRow (parts : List String) : Bool :=
  decide (4 ≤ parts.length) &&
  (strStarts (rowGene parts) "mecALGA251" || strStarts (rowGene parts) "mecA" ||
   strStarts (rowGene parts) "mec-class")

/-- Claim-side characterisation: the marker value a marker row writes. -/
def markerValueOf (parts : List String) : String :=
  if strStarts (rowGene parts) "mecALGA251" then "mecALGA251" else "mecA"

/-- Claim-side characterisation: the marker value derived from the last
marker row of the sequence, or the empty string when there is none. -/
def lastMarkerValue (rows : List (List String)) : String :=
  match (rows.filter isMarkerRow).getLast? with
  | some r => markerValueOf r
  | none => ""

/-- Source: `ccr_classes = perform_ccr_gene_complex_typing(...)`. -/
def ccr_classes (e : GeneEvidence) : List String :=
  perform_ccr_gene_complex_typing e.ccrAB_genes e.ccrC_genes

/-- Source: `mec_classes = perform_mec_gene_complex_typing(...)`. -/
def mec_classes (e : GeneEvidence) : List String :=
  perform_mec_gene_complex_typing e.mec_genes

/-- Source: `all_classes = set(ccr_classes + mec_classes)`. -/
def all_classes (e : GeneEvidence) : List String :=
  (ccr_classes e ++ mec_classes e).dedup

/-- Source: `total_genes = ccrAB_genes | ccrC_genes | mec_genes`. -/
def total_genes (e : GeneEvidence) : List String :=
  listUnion (listUnion e.ccrAB_genes e.ccrC_genes) e.mec_genes

/-- Source: `sccmec_types = perform_sccmec_typing(all_classes)`. -/
def sccmec_types (e : GeneEvidence) : List String :=
  perform_sccmec_typing (all_classes e)

/-- Source: the `perform_subtyping` flag (the string `Yes`), set when exactly one SCCmec
type was found and it lies in the ambiguous-subtype set. -/
def perform_subtyping (e : GeneEvidence) : Bool :=
  (sccmec_types e).length == 1 &&
  decide ((sccmec_types e).headD "" ∈
    ["SCCmec_type_IV(2B)", "SCCmec_type_V(5C2&5)", "SCCmec_type_V(5C2)"])

/-- Source: `kmer_hits = sorted(kmer_results.items(), key=float(Score),
reverse=True)`, realised as a stable insertion sort by descending score (the
inserted element goes before every strictly smaller score and after the
already-placed greater-or-equal ones, which is exactly the stable descending
order Python guarantees). -/
def insertHit (h : String × KmerData) : List (String × KmerData) → List (String × KmerData)
  | [] => [h]
  | x :: xs => if x.2.Score ≤ h.2.Score then h :: x :: xs else x :: insertHit h xs

/-- The stable descending sort of the k-mer hits. -/
def sortHits : List (String × KmerData) → List (String × KmerData)
  | [] => []
  | x :: xs => insertHit x (sortHits xs)

/-- Source: `kmer_hits` (the ranked hit list). -/
def kmer_hits (kr : List (String × KmerData)) : List (String × KmerData) :=
  sortHits kr

/-- Source: `best_kmer_hit = kmer_hits[0][0].split("|")[0] if kmer_hits
else ""`. -/
def best_kmer_hit (kr : List (String × KmerData)) : String :=
  match kmer_hits kr with
  | [] => ""
  | (n, _) :: _ => (strSplit '|' n).headD n

/-- Source: `kmer_subtype = kmer_hits[0][0].split("|")[1] if kmer_hits and
"|" in kmer_hits[0][0] else ""`. -/
def kmer_subtype (kr : List (String × KmerData)) : String :=
  match kmer_hits kr with
  | [] => ""
  | (n, _) :: _ => if strHasChar n '|' then (strSplit '|' n).getD 1 "" else ""

/-- Source: the `template_coverage` column of `kmer_hits[0][1]` (used only under the
guards that make `kmer_hits` non-empty). -/
def coverageOf (kr : List (String × KmerData)) : String :=
  match kmer_hits kr with
  | [] => ""
  | (_, d) :: _ => d.template_coverage

/-- Source: `additional_complexes = all_classes -
SCCMEC_CLASSES.get(db_hit, set())`. -/
def additional_complexes (e : GeneEvidence) (db_hit : String) : List String :=
  listDiff (all_classes e) (tableGet SCCMEC_CLASSES db_hit)

/-- Source: `additional_genes = total_genes -
SCCMEC_DEFINITIONS.get(db_hit, set())`. -/
def additional_genes (e : GeneEvidence) (db_hit : String) : List String :=
  listDiff (total_genes e) (tableGet SCCMEC_DEFINITIONS db_hit)

/-- Source: `missing_genes = SCCMEC_DEFINITIONS.get(best_hit.split("|")[0],
set()) - total_genes` of the zero-type branch. -/
def missing_genes (e : GeneEvidence) (best_hit : String) : List String :=
  listDiff (tableGet SCCMEC_DEFINITIONS ((strSplit '|' best_hit).headD best_hit)) (total_genes e)

/-- The subtype-reconciliation block of `main` (the body guarded by
`perform_subtyping` equal to `Yes` and a truthy `kmer_subtype`); `subtype_gene.split('-')[1]`
raises `IndexError` in Python when the single subtyping gene has no `-`,
modelled by `Except.error`. -/
def subtypeSection (subtyping_genes : List String) (db_hit km_subtype : String) :
    Except String (List String) :=
  if subtyping_genes.length > 1 then
    Except.ok ["Alert! Multiple subtype target genes detected.\n"]
  else if subtyping_genes.length == 1 then
    let subtype_gene := subtyping_genes.headD ""
    match strSplit '-' subtype_gene with
    | _ :: suffix :: _ =>
      let db_subtype := (strSplit '(' db_hit).headD db_hit ++ "_" ++ suffix
      Except.ok
        ((if db_subtype ≠ km_subtype then ["Alert! Contradicting subtype predictions.\n"] else []) ++
         ["Prediction based on genes: " ++ db_subtype ++ "\n"])
    | _ => Except.error "IndexError: list index out of range"
  else Except.ok []

/-- The guard of the subtype-reconciliation block:
`perform_subtyping` equal to `Yes` and `kmer_subtype` truthy. -/
def subtypeRan (e : GeneEvidence) (kr : List (String × KmerData)) : Bool :=
  perform_subtyping e && !(kmer_subtype kr == "")

/-- The `if best_kmer_hit:` homology line of the single-type branch. -/
def homologyLine (kr : List (String × KmerData)) : List String :=
  if best_kmer_hit kr ≠ "" then
    ["Prediction based on homology: " ++ best_kmer_hit kr ++ " (" ++ coverageOf kr ++
     "% coverage)\n"]
  else []

/-- The additional-complexes section of the single-type branch, written only
when the difference is non-empty. -/
def additionalComplexesSection (e : GeneEvidence) (db_hit : String) : List String :=
  if additional_complexes e db_hit ≠ [] then
    ["\nAdditional complexes found:\n", joinSep "\n" (additional_complexes e db_hit) ++ "\n"]
  else []

/-- The additional-genes section of the single-type branch, written only when
the difference is non-empty. -/
def additionalGenesSection (e : GeneEvidence) (db_hit : String) : List String :=
  if additional_genes e db_hit ≠ [] then
    ["\nAdditional genes found:\n", joinSep "\n" (additional_genes e db_hit) ++ "\n"]
  else []

/-- The chunks of the single-type branch after the subtype block: base
prediction line, optional homology line, optional diff sections. -/
def singleTypeChunks (e : GeneEvidence) (kr : List (String × KmerData)) (db_hit : String) :
    List String :=
  ["Prediction based on genes: " ++ db_hit ++ "\n"] ++
  homologyLine kr ++
  additionalComplexesSection e db_hit ++
  additionalGenesSection e db_hit

/-- The chunks of the multi-type branch: the ambiguity alert naming the count
and the list of all candidate labels. -/
def multiTypeChunks (types : List String) : List String :=
  ["Alert! Possible " ++ toString types.length ++ " SCCmec cassettes were predicted:\n",
   joinSep "\n" types ++ "\n\n"]

/-- The missing-genes section of the zero-type branch, written only when the
difference is non-empty. -/
def missingGenesSection (e : GeneEvidence) (best_hit : String) : List String :=
  if missing_genes e best_hit ≠ [] then
    ["\nMissing genes for this cassette:\n", joinSep "\n" (missing_genes e best_hit) ++ "\n"]
  else []

/-- The chunks of the zero-type branch: no-element line, detected complexes
when any, best homology match and its missing genes when hits exist. -/
def zeroTypeChunks (e : GeneEvidence) (kr : List (String × KmerData)) : List String :=
  ["No SCCmec element was detected\n"] ++
  (if all_classes e ≠ [] then
    ["\nDetected gene complexes:\n", joinSep "\n" (all_classes e) ++ "\n"]
   else []) ++
  (match kmer_hits kr with
   | [] => []
   | (n, d) :: _ =>
     ["\nBest homology match: " ++ n ++ " (" ++ d.template_coverage ++ "% coverage)\n"] ++
     missingGenesSection e n)

/-- The MRSA/MSSA determination lines. -/
def mrsaChunks (e : GeneEvidence) : List String :=
  if e.mrsa_gene ≠ "" then
    ["The input organism was predicted as a MRSA isolate\nThe " ++ e.mrsa_gene ++
     " gene was detected\n\n"]
  else
    ["The input organism was predicted as a MSSA isolate\nThe mecA/mecC gene was not detected\n\n"]

/-- The full narrative report of `main` as the ordered list of written
chunks (one element per `out.write`); `Except.error` models the `IndexError`
of the subtype block. -/
def reportChunks (e : GeneEvidence) (kr : List (String × KmerData)) :
    Except String (List String) :=
  let types := sccmec_types e
  if types ≠ [] then
    if types.length > 1 then
      Except.ok (mrsaChunks e ++ multiTypeChunks types)
    else
      let db_hit := types.headD ""
      match (if subtypeRan e kr then subtypeSection e.subtyping_genes db_hit (kmer_subtype kr)
             else Except.ok []) with
      | Except.error msg => Except.error msg
      | Except.ok subChunks =>
        Except.ok (mrsaChunks e ++ subChunks ++ singleTypeChunks e kr db_hit)
  else
    Except.ok (mrsaChunks e ++ zeroTypeChunks e kr)

/-- One row of the auxiliary homology table. -/
def htmlRow (p : String × KmerData) : String :=
  p.1 ++ "\t" ++ p.2.ScoreStr ++ "\t" ++ p.2.Expected ++ "\t" ++ p.2.z ++ "\t" ++
  p.2.p_value ++ "\t" ++ p.2.query_coverage ++ "\t" ++ p.2.template_coverage ++ "\t" ++
  p.2.depth ++ "\t" ++ p.2.Kmers_in_Template ++ "\t" ++ p.2.Description ++ "\n"

/-- The auxiliary homology table (`HTML_MyKmerFinder.txt`): header plus the
top 5 ranked hits, or the placeholder line. -/
def htmlChunks (kr : List (String × KmerData)) : List String :=
  ["SCCmec elements\n"] ++
  (if kmer_hits kr ≠ [] then
    ["Template\tScore\tExpected\tz\tp_value\tQuery Coverage\tTemplate Coverage\tDepth\tKmers\tDescription\n"] ++
    ((kmer_hits kr).take 5).map htmlRow
   else ["no whole SCCmec cassette was found\n"])

/-- The whole classification and report-synthesis engine on parsed, well-typed
evidence: the narrative report chunks and the auxiliary table. -/
def runCore (e : GeneEvidence) (kr : List (String × KmerData)) :
    Except String (List String × List String) :=
  match reportChunks e kr with
  | Except.error m => Except.error m
  | Except.ok cs => Except.ok (cs, htmlChunks kr)

/-- The narrative report as one text, for byte-identity statements. -/
def fullReport (e : GeneEvidence) (kr : List (String × KmerData)) : Except String String :=
  (reportChunks e kr).map String.join

/-! Helper lemmas about the `if`-guarded singleton segments the two typing
functions are built from. -/

theorem mem_seg {P : Prop} [Decidable P] {x t : String} :
    x ∈ (if P then [t] else []) ↔ P ∧ x = t := by
  split <;> simp_all

theorem mem_seg2 {P Q : Prop} [Decidable P] [Decidable Q] {x t u : String} :
    x ∈ (if P then [t] else if Q then [u] else []) ↔ (P ∧ x = t) ∨ (¬P ∧ Q ∧ x = u) := by
  split
  · simp_all
  · split <;> simp_all

theorem seg_eq_nil {P : Prop} [Decidable P] {t : String} :
    (if P then [t] else []) = ([] : List String) ↔ ¬P := by
  split <;> simp_all

theorem seg2_eq_nil {P Q : Prop} [Decidable P] [Decidable Q] {t u : String} :
    (if P then [t] else if Q then [u] else []) = ([] : List String) ↔ ¬P ∧ ¬Q := by
  split
  · simp_all
  · split <;> simp_all

/-- C3: for every class set containing `ccr class 2`, `ccr class 5` and
`mec class B`, the typer output contains `SCCmec_type_IV(2B&5)` and not
`SCCmec_type_IV(2B)`; with `ccr class 2` and `mec class B` but no
`ccr class 5`, it contains `SCCmec_type_IV(2B)`. -/
theorem C3_typer_rule_precedence (classes : List String) :
    (("ccr class 2" ∈ classes ∧ "ccr class 5" ∈ classes ∧ "mec class B" ∈ classes) →
      "SCCmec_type_IV(2B&5)" ∈ perform_sccmec_typing classes ∧
      "SCCmec_type_IV(2B)" ∉ perform_sccmec_typing classes) ∧
    (("ccr class 2" ∈ classes ∧ "mec class B" ∈ classes ∧ "ccr class 5" ∉ classes) →
      "SCCmec_type_IV(2B)" ∈ perform_sccmec_typing classes) := by
  constructor
  · rintro ⟨h2, h5, hB⟩
    constructor
    · simp [perform_sccmec_typing, h2, h5, hB]
    · simp [perform_sccmec_typing, List.mem_append, mem_seg, mem_seg2, h2, h5, hB]
  · rintro ⟨h2, hB, h5⟩
    simp [perform_sccmec_typing, List.mem_append, mem_seg, mem_seg2, h2, h5, hB]

/-- C3 witness at the concrete class sets of the spec scenario. -/
theorem C3_typer_rule_precedence_witness :
    ("SCCmec_type_IV(2B&5)" ∈
        perform_sccmec_typing ["ccr class 2", "ccr class 5", "mec class B"] ∧
      "SCCmec_type_IV(2B)" ∉
        perform_sccmec_typing ["ccr class 2", "ccr class 5", "mec class B"]) ∧
    "SCCmec_type_IV(2B)" ∈ perform_sccmec_typing ["ccr class 2", "mec class B"] :=
  ⟨(C3_typer_rule_precedence ["ccr class 2", "ccr class 5", "mec class B"]).1
      ⟨by decide, by decide, by decide⟩,
   (C3_typer_rule_precedence ["ccr class 2", "mec class B"]).2
      ⟨by decide, by decide, by decide⟩⟩

/-- C4: for every pair of input gene sets, if both `ccrC11` and `ccrC12` are
present the CCR classifier emits `ccr class 5&5` and not `ccr class 5`; with
`ccrC11` but not `ccrC12` it emits `ccr class 5` and not `ccr class 5&5`. -/
theorem C4_ccr_class5_precedence (ccrAB_genes ccrC_genes : List String) :
    (("ccrC11" ∈ ccrC_genes ∧ "ccrC12" ∈ ccrC_genes) →
      "ccr class 5&5" ∈ perform_ccr_gene_complex_typing ccrAB_genes ccrC_genes ∧
      "ccr class 5" ∉ perform_ccr_gene_complex_typing ccrAB_genes ccrC_genes) ∧
    (("ccrC11" ∈ ccrC_genes ∧ "ccrC12" ∉ ccrC_genes) →
      "ccr class 5" ∈ perform_ccr_gene_complex_typing ccrAB_genes ccrC_genes ∧
      "ccr class 5&5" ∉ perform_ccr_gene_complex_typing ccrAB_genes ccrC_genes) := by
  constructor
  · rintro ⟨h1, h2⟩
    constructor
    · simp [perform_ccr_gene_complex_typing, h1, h2]
    · simp [perform_ccr_gene_complex_typing, List.mem_append, mem_seg, mem_seg2, h1, h2]
  · rintro ⟨h1, h2⟩
    constructor
    · simp [perform_ccr_gene_complex_typing, List.mem_append, mem_seg, mem_seg2, h1, h2]
    · simp [perform_ccr_gene_complex_typing, List.mem_append, mem_seg, mem_seg2, h1, h2]

/-- C4 witness at concrete ccrC gene sets. -/
theorem C4_ccr_class5_precedence_witness :
    ("ccr class 5&5" ∈ perform_ccr_gene_complex_typing [] ["ccrC11", "ccrC12"] ∧
      "ccr class 5" ∉ perform_ccr_gene_complex_typing [] ["ccrC11", "ccrC12"]) ∧
    ("ccr class 5" ∈ perform_ccr_gene_complex_typing [] ["ccrC11"] ∧
      "ccr class 5&5" ∉ perform_ccr_gene_complex_typing [] ["ccrC11"]) :=
  ⟨(C4_ccr_class5_precedence [] ["ccrC11", "ccrC12"]).1 ⟨by decide, by decide⟩,
   (C4_ccr_class5_precedence [] ["ccrC11"]).2 ⟨by decide, by decide⟩⟩

/-- A two-element list is contained in `cs` iff both elements are. -/
theorem pair_subset_iff {a b : String} {cs : List String} :
    [a, b] ⊆ cs ↔ (a ∈ cs ∧ b ∈ cs) := by
  simp [List.subset_def]

/-- A three-element list is contained in `cs` iff all three elements are. -/
theorem triple_subset_iff {a b c : String} {cs : List String} :
    [a, b, c] ⊆ cs ↔ (a ∈ cs ∧ b ∈ cs ∧ c ∈ cs) := by
  simp [List.subset_def]

/-- C5: the typer returns the empty list iff no rule of the table has its
whole required class subset inside the input class set, and every type it
does return comes from a rule whose whole required subset is present (a
partial overlap never fires a rule). -/
theorem C5_typer_empty_iff_no_rule (classes : List String) :
    (perform_sccmec_typing classes = [] ↔ ∀ p ∈ SCCMEC_RULES, ¬ p.2 ⊆ classes) ∧
    (∀ t ∈ perform_sccmec_typing classes,
      ∃ p ∈ SCCMEC_RULES, p.1 = t ∧ p.2 ⊆ classes) := by
  constructor
  · constructor
    · intro h p hp
      simp only [perform_sccmec_typing, List.append_eq_nil, seg_eq_nil, seg2_eq_nil,
        and_assoc] at h
      obtain ⟨h1, h2, h3, h4, h5, h6, h7, h8, h9, h10, h11, h12, h13, h14, h15⟩ := h
      simp only [SCCMEC_RULES, List.mem_cons, List.not_mem_nil, or_false] at hp
      rcases hp with rfl | rfl | rfl | rfl | rfl | rfl | rfl | rfl | rfl | rfl | rfl | rfl | rfl | rfl | rfl
      · exact fun hsub => h1 (pair_subset_iff.mp hsub)
      · exact fun hsub => h2 (pair_subset_iff.mp hsub)
      · exact fun hsub => h3 (pair_subset_iff.mp hsub)
      · exact fun hsub => h4 (triple_subset_iff.mp hsub)
      · exact fun hsub => h5 (pair_subset_iff.mp hsub)
      · exact fun hsub => h6 (pair_subset_iff.mp hsub)
      · exact fun hsub => h7 (pair_subset_iff.mp hsub)
      · exact fun hsub => h8 (pair_subset_iff.mp hsub)
      · exact fun hsub => h9 (pair_subset_iff.mp hsub)
      · exact fun hsub => h10 (pair_subset_iff.mp hsub)
      · exact fun hsub => h11 (pair_subset_iff.mp hsub)
      · exact fun hsub => h12 (pair_subset_iff.mp hsub)
      · exact fun hsub => h13 (pair_subset_iff.mp hsub)
      · exact fun hsub => h14 (pair_subset_iff.mp hsub)
      · exact fun hsub => h15 (pair_subset_iff.mp hsub)
    · intro h
      simp only [perform_sccmec_typing, List.append_eq_nil, seg_eq_nil, seg2_eq_nil,
        and_assoc]
      refine ⟨?_, ?_, ?_, ?_, ?_, ?_, ?_, ?_, ?_, ?_, ?_, ?_, ?_, ?_, ?_⟩
      · exact fun hc => h ("SCCmec_type_I(1B)", ["ccr class 1", "mec class B"])
          (by decide) (pair_subset_iff.mpr hc)
      · exact fun hc => h ("SCCmec_type_II(2A)", ["ccr class 2", "mec class A"])
          (by decide) (pair_subset_iff.mpr hc)
      · exact fun hc => h ("SCCmec_type_III(3A)", ["ccr class 3", "mec class A"])
          (by decide) (pair_subset_iff.mpr hc)
      · exact fun hc => h ("SCCmec_type_IV(2B&5)", ["ccr class 2", "ccr class 5", "mec class B"])
          (by decide) (triple_subset_iff.mpr hc)
      · exact fun hc => h ("SCCmec_type_IV(2B)", ["ccr class 2", "mec class B"])
          (by decide) (pair_subset_iff.mpr hc)
      · exact fun hc => h ("SCCmec_type_V(5C2)", ["ccr class 5", "mec class C2"])
          (by decide) (pair_subset_iff.mpr hc)
      · exact fun hc => h ("SCCmec_type_V(5C2&5)", ["ccr class 5&5", "mec class C2"])
          (by decide) (pair_subset_iff.mpr hc)
      · exact fun hc => h ("SCCmec_type_VI(4B)", ["ccr class 4", "mec class B"])
          (by decide) (pair_subset_iff.mpr hc)
      · exact fun hc => h ("SCCmec_type_VII(5C1)", ["ccr class 5", "mec class C1"])
          (by decide) (pair_subset_iff.mpr hc)
      · exact fun hc => h ("SCCmec_type_VIII(4A)", ["ccr class 4", "mec class A"])
          (by decide) (pair_subset_iff.mpr hc)
      · exact fun hc => h ("SCCmec_type_IX(1C2)", ["ccr class 1", "mec class C2"])
          (by decide) (pair_subset_iff.mpr hc)
      · exact fun hc => h ("SCCmec_type_X(7C1)", ["ccr class 7", "mec class C1"])
          (by decide) (pair_subset_iff.mpr hc)
      · exact fun hc => h ("SCCmec_type_XI(8E)", ["ccr class 8", "mec class E"])
          (by decide) (pair_subset_iff.mpr hc)
      · exact fun hc => h ("SCCmec_type_XII(9C2)", ["ccr class 9", "mec class C2"])
          (by decide) (pair_subset_iff.mpr hc)
      · exact fun hc => h ("SCCmec_type_XIII(9A)", ["ccr class 9", "mec class A"])
          (by decide) (pair_subset_iff.mpr hc)
  · intro t ht
    simp only [perform_sccmec_typing, List.mem_append, mem_seg, mem_seg2, and_assoc,
      or_assoc] at ht
    rcases ht with ⟨h1, h2, rfl⟩ |
      ⟨h1, h2, rfl⟩ |
      ⟨h1, h2, rfl⟩ |
      ⟨h1, h2, h3, rfl⟩ |
      ⟨hn, h1, h2, rfl⟩ |
      ⟨h1, h2, rfl⟩ |
      ⟨h1, h2, rfl⟩ |
      ⟨h1, h2, rfl⟩ |
      ⟨h1, h2, rfl⟩ |
      ⟨h1, h2, rfl⟩ |
      ⟨h1, h2, rfl⟩ |
      ⟨h1, h2, rfl⟩ |
      ⟨h1, h2, rfl⟩ |
      ⟨h1, h2, rfl⟩ |
      ⟨h1, h2, rfl⟩
    · exact ⟨("SCCmec_type_I(1B)", ["ccr class 1", "mec class B"]), by decide, rfl, pair_subset_iff.mpr ⟨h1, h2⟩⟩
    · exact ⟨("SCCmec_type_II(2A)", ["ccr class 2", "mec class A"]), by decide, rfl, pair_subset_iff.mpr ⟨h1, h2⟩⟩
    · exact ⟨("SCCmec_type_III(3A)", ["ccr class 3", "mec class A"]), by decide, rfl, pair_subset_iff.mpr ⟨h1, h2⟩⟩
    · exact ⟨("SCCmec_type_IV(2B&5)", ["ccr class 2", "ccr class 5", "mec class B"]), by decide, rfl, triple_subset_iff.mpr ⟨h1, h2, h3⟩⟩
    · exact ⟨("SCCmec_type_IV(2B)", ["ccr class 2", "mec class B"]), by decide, rfl, pair_subset_iff.mpr ⟨h1, h2⟩⟩
    · exact ⟨("SCCmec_type_V(5C2)", ["ccr class 5", "mec class C2"]), by decide, rfl, pair_subset_iff.mpr ⟨h1, h2⟩⟩
    · exact ⟨("SCCmec_type_V(5C2&5)", ["ccr class 5&5", "mec class C2"]), by decide, rfl, pair_subset_iff.mpr ⟨h1, h2⟩⟩
    · exact ⟨("SCCmec_type_VI(4B)", ["ccr class 4", "mec class B"]), by decide, rfl, pair_subset_iff.mpr ⟨h1, h2⟩⟩
    · exact ⟨("SCCmec_type_VII(5C1)", ["ccr class 5", "mec class C1"]), by decide, rfl, pair_subset_iff.mpr ⟨h1, h2⟩⟩
    · exact ⟨("SCCmec_type_VIII(4A)", ["ccr class 4", "mec class A"]), by decide, rfl, pair_subset_iff.mpr ⟨h1, h2⟩⟩
    · exact ⟨("SCCmec_type_IX(1C2)", ["ccr class 1", "mec class C2"]), by decide, rfl, pair_subset_iff.mpr ⟨h1, h2⟩⟩
    · exact ⟨("SCCmec_type_X(7C1)", ["ccr class 7", "mec class C1"]), by decide, rfl, pair_subset_iff.mpr ⟨h1, h2⟩⟩
    · exact ⟨("SCCmec_type_XI(8E)", ["ccr class 8", "mec class E"]), by decide, rfl, pair_subset_iff.mpr ⟨h1, h2⟩⟩
    · exact ⟨("SCCmec_type_XII(9C2)", ["ccr class 9", "mec class C2"]), by decide, rfl, pair_subset_iff.mpr ⟨h1, h2⟩⟩
    · exact ⟨("SCCmec_type_XIII(9A)", ["ccr class 9", "mec class A"]), by decide, rfl, pair_subset_iff.mpr ⟨h1, h2⟩⟩

/-- C5 witness: a class set overlapping every rule only partially yields the
empty list, and a concrete matching set fires a fully-satisfied rule. -/
theorem C5_typer_empty_iff_no_rule_witness :
    perform_sccmec_typing ["ccr class 1", "mec class A"] = [] ∧
    (∃ p ∈ SCCMEC_RULES, p.1 = "SCCmec_type_II(2A)" ∧
      p.2 ⊆ ["ccr class 2", "mec class A"]) :=
  ⟨(C5_typer_empty_iff_no_rule ["ccr class 1", "mec class A"]).1.2 (by decide),
   (C5_typer_empty_iff_no_rule ["ccr class 2", "mec class A"]).2 "SCCmec_type_II(2A)"
     (by decide)⟩

/-! Helper lemmas about string prefixes, used to relate the parsing branches
to the claim-side marker-row characterisation. -/

theorem strStarts_iff {s p : String} : strStarts s p = true ↔ p.toList <+: s.toList := by
  simp [strStarts]

/-- If `q` is a prefix of `p`, any string starting with `p` starts with
`q`. -/
theorem strStarts_of_longer {g p q : String} (hqp : q.toList <+: p.toList)
    (h : strStarts g p = true) : strStarts g q = true :=
  strStarts_iff.mpr (hqp.trans (strStarts_iff.mp h))

/-- Two patterns neither of which prefixes the other never both prefix the
same string. -/
theorem strStarts_excl {g p q : String} (hpq : ¬ p.toList <+: q.toList)
    (hqp : ¬ q.toList <+: p.toList) (h : strStarts g p = true) :
    strStarts g q = false := by
  rcases hq : strStarts g q with _ | _
  · rfl
  · exact absurd ( List.prefix_or_prefix_of_prefix (strStarts_iff.mp h) (strStarts_iff.mp hq))
      (by rintro (hc | hc) <;> [exact hpq hc; exact hqp hc])

/-- A non-marker update of the parser state keeps `mrsa_gene`; the one
row-level fact the last-write-wins induction needs: each parsed row either
leaves the marker unchanged (when it is not a marker row) or overwrites it
with the value determined by its gene token. -/
theorem parseDbRow_mrsa (e : GeneEvidence) (parts : List String) :
    (parseDbRow e parts).mrsa_gene =
      if isMarkerRow parts then markerValueOf parts else e.mrsa_gene := by
  by_cases hlen : parts.length < 4
  · have hR : isMarkerRow parts = false := by
      have h4 : ¬ 4 ≤ parts.length := by omega
      simp [isMarkerRow, h4]
    simp [parseDbRow, hlen, hR]
  · have h4 : 4 ≤ parts.length := by omega
    have hd : decide (4 ≤ parts.length) = true := decide_eq_true h4
    by_cases hccr : strStarts (rowGene parts) "ccr" = true
    · have hm1 : strStarts (rowGene parts) "mecALGA251" = false :=
        strStarts_excl (by decide) (by decide) hccr
      have hm2 : strStarts (rowGene parts) "mecA" = false :=
        strStarts_excl (by decide) (by decide) hccr
      have hm3 : strStarts (rowGene parts) "mec-class" = false :=
        strStarts_excl (by decide) (by decide) hccr
      have hR : isMarkerRow parts = false := by
        simp [isMarkerRow, hm1, hm2, hm3]
      rw [hR]
      simp only [parseDbRow, hlen, if_false, hccr, if_true, Bool.false_eq_true]
      split
      · rfl
      · split <;> rfl
    · by_cases hmec : (strStarts (rowGene parts) "mec" || strStarts (rowGene parts) "IS" ||
        strStarts (rowGene parts) "dme") = true
      · simp only [parseDbRow, hlen, if_false, hccr, hmec, if_true, Bool.false_eq_true,
          isMarkerRow, markerValueOf, hd, Bool.true_and]
        by_cases hA : strStarts (rowGene parts) "mecALGA251" = true
        · simp [hA]
        · by_cases hA2 : strStarts (rowGene parts) "mecA" = true
          · simp [hA, hA2]
          · by_cases hcls : strStarts (rowGene parts) "mec-class" = true
            · simp [hA, hA2, hcls]
            · simp [hA, hA2, hcls]
      · have hnm : strStarts (rowGene parts) "mec" = false := by
          rcases h : strStarts (rowGene parts) "mec" with _ | _
          · rfl
          · exact absurd (by simp [h] : (strStarts (rowGene parts) "mec" ||
              strStarts (rowGene parts) "IS" || strStarts (rowGene parts) "dme") = true) hmec
        have hm1 : strStarts (rowGene parts) "mecALGA251" = false := by
          rcases h : strStarts (rowGene parts) "mecALGA251" with _ | _
          · rfl
          · rw [← hnm]; exact (strStarts_of_longer (by decide) h).symm
        have hm2 : strStarts (rowGene parts) "mecA" = false := by
          rcases h : strStarts (rowGene parts) "mecA" with _ | _
          · rfl
          · rw [← hnm]; exact (strStarts_of_longer (by decide) h).symm
        have hm3 : strStarts (rowGene parts) "mec-class" = false := by
          rcases h : strStarts (rowGene parts) "mec-class" with _ | _
          · rfl
          · rw [← hnm]; exact (strStarts_of_longer (by decide) h).symm
        have hR : isMarkerRow parts = false := by
          simp [isMarkerRow, hm1, hm2, hm3]
        rw [hR]
        simp only [parseDbRow, hlen, if_false, hccr, hmec, Bool.false_eq_true]
        split <;> rfl

/-- The generalised last-write-wins induction for the marker over the
parsing fold. -/
theorem foldl_parseDbRow_mrsa (rows : List (List String)) (e : GeneEvidence) :
    (rows.foldl parseDbRow e).mrsa_gene =
      ((rows.filter isMarkerRow).getLast?).elim e.mrsa_gene markerValueOf := by
  induction rows generalizing e with
  | nil => rfl
  | cons r rest ih =>
    rw [List.foldl_cons, ih]
    rcases hlast : (rest.filter isMarkerRow).getLast? with _ | x
    · have hnil : rest.filter isMarkerRow = [] := by
        rcases hf : rest.filter isMarkerRow with _ | ⟨y, ys⟩
        · rfl
        · rw [hf] at hlast
          simp at hlast
      by_cases hr : isMarkerRow r
      · simp [List.filter_cons, hr, hnil, hlast, parseDbRow_mrsa, Option.elim]
      · simp [List.filter_cons, hr, hnil, hlast, parseDbRow_mrsa, Option.elim]
    · have hne : rest.filter isMarkerRow ≠ [] := by
        intro hc; rw [hc] at hlast; cases hlast
      have hcons : ((r :: rest).filter isMarkerRow).getLast? = some x := by
        rcases hr : isMarkerRow r with _ | _
        · simp [List.filter_cons, hr, hlast]
        · rw [List.filter_cons_of_pos hr]
          rw [List.getLast?_cons, hlast]
          rfl
      simp [hcons, hlast]

/-- C6: for every ordered sequence of identity-matcher data rows, the parsed
resistance marker equals the value determined by the last row whose gene
token matches a resistance-marker pattern, or the empty string when no row
matches (last write wins). -/
theorem C6_marker_last_write_wins (rows : List (List String)) :
    (parseDbFinder rows).mrsa_gene = lastMarkerValue rows := by
  rw [parseDbFinder, foldl_parseDbRow_mrsa, lastMarkerValue]
  rcases (rows.filter isMarkerRow).getLast? with _ | x <;> rfl

/-- A concrete identity-matcher data row whose gene token is
`mec-class-C2` (no literal `mecA` token anywhere in the input). -/
def mecClassRow : List String := ["mec-class-C2:contig1", "90.0", "100", "100"]

/-- The evidence parsed from the single `mec-class-C2` row. -/
def eMecClass : GeneEvidence := parseDbFinder [mecClassRow]

/-- C10: a gene token beginning with `mec-class` sets the marker to `mecA`
when no later marker row follows, a token beginning with `mecALGA251` sets
`mecALGA251` rather than `mecA` despite also matching the `mecA` prefix, and
on the concrete `mec-class-C2` input the report declares an MRSA isolate
with `The mecA gene was detected` although no token equal to `mecA` was
parsed. -/
theorem C10_marker_prefix_semantics :
    (∀ rows r, (rows.filter isMarkerRow).getLast? = some r →
      (strStarts (rowGene r) "mec-class" = true →
        (parseDbFinder rows).mrsa_gene = "mecA") ∧
      (strStarts (rowGene r) "mecALGA251" = true →
        (parseDbFinder rows).mrsa_gene = "mecALGA251")) ∧
    (eMecClass.mrsa_gene = "mecA" ∧
      "mecA" ∉ total_genes eMecClass ∧
      (reportChunks eMecClass []).toOption.map (fun cs => cs.headD "") =
        some ("The input organism was predicted as a MRSA isolate\n" ++
          "The mecA gene was detected\n\n")) := by
  constructor
  · intro rows r hlast
    have hm : (parseDbFinder rows).mrsa_gene = markerValueOf r := by
      rw [parseDbFinder, foldl_parseDbRow_mrsa, hlast]
      rfl
    constructor
    · intro hcls
      have hA : strStarts (rowGene r) "mecALGA251" = false :=
        strStarts_excl (by decide) (by decide) hcls
      rw [hm, markerValueOf, hA]
      simp
    · intro hA
      rw [hm, markerValueOf, hA]
      simp
  · exact ⟨by decide, by decide, by decide⟩

/-- C10 witness: the universal parts applied to the one-row `mec-class-C2`
input and to a one-row `mecALGA251` input. -/
theorem C10_marker_prefix_semantics_witness :
    (parseDbFinder [mecClassRow]).mrsa_gene = "mecA" ∧
    (parseDbFinder [["mecALGA251:contig1", "90.0", "100", "100"]]).mrsa_gene =
      "mecALGA251" :=
  ⟨((C10_marker_prefix_semantics.1 [mecClassRow] mecClassRow (by decide)).1 (by decide)),
   ((C10_marker_prefix_semantics.1 [["mecALGA251:contig1", "90.0", "100", "100"]]
      ["mecALGA251:contig1", "90.0", "100", "100"] (by decide)).2 (by decide))⟩

/-! Lemmas about the stable descending sort of the homology hits. -/

theorem mem_insertHit {b h : String × KmerData} {l : List (String × KmerData)} :
    b ∈ insertHit h l ↔ b = h ∨ b ∈ l := by
  induction l with
  | nil => simp [insertHit]
  | cons x xs ih =>
    rw [insertHit]
    split
    · simp [or_comm, or_assoc, or_left_comm]
    · simp [ih]
      tauto

theorem insertHit_pairwise {h : String × KmerData} {l : List (String × KmerData)}
    (hl : l.Pairwise (fun a b => b.2.Score ≤ a.2.Score)) :
    (insertHit h l).Pairwise (fun a b => b.2.Score ≤ a.2.Score) := by
  induction l with
  | nil => simp [insertHit]
  | cons x xs ih =>
    rw [insertHit]
    split
    · rename_i hx
      refine List.Pairwise.cons ?_ hl
      intro b hb
      rcases List.mem_cons.mp hb with rfl | hb
      · exact hx
      · exact le_trans (List.rel_of_pairwise_cons hl hb) hx
    · rename_i hx
      refine List.Pairwise.cons ?_ (ih (List.Pairwise.sublist (List.sublist_cons_self x xs) hl))
      intro b hb
      rcases mem_insertHit.mp hb with rfl | hb
      · exact le_of_lt (lt_of_not_le hx)
      · exact List.rel_of_pairwise_cons hl hb

theorem filter_insertHit (q : ℚ) (h : String × KmerData) (l : List (String × KmerData)) :
    (insertHit h l).filter (fun p => decide (p.2.Score = q)) =
      if h.2.Score = q then h :: l.filter (fun p => decide (p.2.Score = q))
      else l.filter (fun p => decide (p.2.Score = q)) := by
  induction l with
  | nil =>
    by_cases hq : h.2.Score = q <;> simp [insertHit, List.filter, hq]
  | cons x xs ih =>
    rw [insertHit]
    split
    · rename_i hx
      by_cases hq : h.2.Score = q <;> simp [List.filter_cons, hq]
    · rename_i hx
      by_cases hq : h.2.Score = q
      · have hxq : ¬ x.2.Score = q := fun hc => hx (le_of_eq (hc.trans hq.symm))
        simp [List.filter_cons, hq, hxq, ih]
      · simp [List.filter_cons, hq, ih]

theorem sortHits_pairwise (l : List (String × KmerData)) :
    (sortHits l).Pairwise (fun a b => b.2.Score ≤ a.2.Score) := by
  induction l with
  | nil => simp [sortHits]
  | cons x xs ih => exact insertHit_pairwise ih

theorem sortHits_stable (l : List (String × KmerData)) (q : ℚ) :
    (sortHits l).filter (fun p => decide (p.2.Score = q)) =
      l.filter (fun p => decide (p.2.Score = q)) := by
  induction l with
  | nil => rfl
  | cons x xs ih =>
    rw [sortHits, filter_insertHit]
    by_cases hq : x.2.Score = q <;> simp [List.filter_cons, hq, ih]

/-- C8: the ranked hit list is sorted by descending numeric score, equal
scores keep their encounter order (stable sort, stated as the preservation
of every equal-score fibre of the input), the head of the ranked list is the
hit the best-homology lines use, and the auxiliary table lists exactly its
first five elements in order. -/
theorem C8_ranking_sorted_stable (kr : List (String × KmerData)) :
    (kmer_hits kr).Pairwise (fun a b => b.2.Score ≤ a.2.Score) ∧
    (∀ q : ℚ, (kmer_hits kr).filter (fun p => decide (p.2.Score = q)) =
      kr.filter (fun p => decide (p.2.Score = q))) ∧
    (∀ n d tl, kmer_hits kr = (n, d) :: tl →
      best_kmer_hit kr = (strSplit '|' n).headD n ∧
      coverageOf kr = d.template_coverage) ∧
    (kmer_hits kr ≠ [] →
      htmlChunks kr = ["SCCmec elements\n",
        "Template\tScore\tExpected\tz\tp_value\tQuery Coverage\tTemplate Coverage\tDepth\tKmers\tDescription\n"] ++
        ((kmer_hits kr).take 5).map htmlRow) := by
  refine ⟨sortHits_pairwise kr, fun q => sortHits_stable kr q, ?_, ?_⟩
  · intro n d tl h
    constructor
    · rw [best_kmer_hit, h]
    · rw [coverageOf, h]
  · intro h
    simp [htmlChunks, h]

/-- Concrete tied-score input for the C8 witness. -/
def krTie : List (String × KmerData) :=
  [("SCCmec_type_II(2A)|t1",
    { Score := 10, ScoreStr := "10.0", Expected := "1", z := "1", p_value := "0.1",
      query_coverage := "80.0", template_coverage := "75.5", depth := "1.0",
      Kmers_in_Template := "50", Description := "first" }),
   ("SCCmec_type_I(1B)|t2",
    { Score := 10, ScoreStr := "10.0", Expected := "1", z := "1", p_value := "0.1",
      query_coverage := "80.0", template_coverage := "60.0", depth := "1.0",
      Kmers_in_Template := "50", Description := "second" })]

/-- C8 witness: on two hits with tied score the equal-score fibre keeps the
encounter order, and the head of the ranked list feeds the best-homology
line. -/
theorem C8_ranking_sorted_stable_witness :
    (kmer_hits krTie).filter (fun p => decide (p.2.Score = (10 : ℚ))) =
      krTie.filter (fun p => decide (p.2.Score = (10 : ℚ))) ∧
    (best_kmer_hit krTie = "SCCmec_type_II(2A)" ∧
      coverageOf krTie = "75.5") :=
  ⟨(C8_ranking_sorted_stable krTie).2.1 (10 : ℚ),
   by
    have h := (C8_ranking_sorted_stable krTie).2.2.1 "SCCmec_type_II(2A)|t1"
      ({ Score := 10, ScoreStr := "10.0", Expected := "1", z := "1", p_value := "0.1",
         query_coverage := "80.0", template_coverage := "75.5", depth := "1.0",
         Kmers_in_Template := "50", Description := "first" })
      [("SCCmec_type_I(1B)|t2",
        { Score := 10, ScoreStr := "10.0", Expected := "1", z := "1", p_value := "0.1",
          query_coverage := "80.0", template_coverage := "60.0", depth := "1.0",
          Kmers_in_Template := "50", Description := "second" })] (by decide)
    exact ⟨by rw [h.1]; decide, h.2⟩⟩

/-! Branch-shape lemmas for the report generator. -/

theorem reportChunks_zero {e : GeneEvidence} (kr : List (String × KmerData))
    (h : sccmec_types e = []) :
    reportChunks e kr = Except.ok (mrsaChunks e ++ zeroTypeChunks e kr) := by
  rw [reportChunks]
  simp [h]

theorem reportChunks_multi {e : GeneEvidence} (kr : List (String × KmerData))
    (h : 1 < (sccmec_types e).length) :
    reportChunks e kr = Except.ok (mrsaChunks e ++ multiTypeChunks (sccmec_types e)) := by
  rw [reportChunks]
  have hne : ¬ sccmec_types e = [] := by
    intro hc; rw [hc] at h; simp at h
  simp [hne, h]

theorem reportChunks_single {e : GeneEvidence} (kr : List (String × KmerData)) {t : String}
    (h : sccmec_types e = [t]) :
    reportChunks e kr =
      match (if subtypeRan e kr then subtypeSection e.subtyping_genes t (kmer_subtype kr)
             else Except.ok []) with
      | Except.error msg => Except.error msg
      | Except.ok subChunks =>
        Except.ok (mrsaChunks e ++ subChunks ++ singleTypeChunks e kr t) := by
  rw [reportChunks]
  simp [h]

theorem subtypeSection_multi {sg : List String} {dh ks : String} (h : 1 < sg.length) :
    subtypeSection sg dh ks =
      Except.ok ["Alert! Multiple subtype target genes detected.\n"] := by
  rw [subtypeSection, if_pos h]

theorem subtypeSection_isOk_false_iff {sg : List String} {dh ks : String} :
    (subtypeSection sg dh ks).isOk = false ↔
      (sg.length = 1 ∧ (strSplit '-' (sg.headD "")).length ≤ 1) := by
  rw [subtypeSection]
  by_cases h1 : sg.length > 1
  · rw [if_pos h1]
    constructor
    · intro hc; simp [Except.isOk, Except.toBool] at hc
    · rintro ⟨h2, -⟩; omega
  · rw [if_neg h1]
    by_cases h2 : sg.length = 1
    · rw [if_pos (by simpa using h2)]
      rcases hg : strSplit '-' (sg.head?.getD "") with _ | ⟨x, _ | ⟨y, rest⟩⟩ <;>
        simp [Except.isOk, Except.toBool, h2, List.headD_eq_head?_getD, hg]
    · rw [if_neg (by simpa using h2)]
      constructor
      · intro hc; simp [Except.isOk, Except.toBool] at hc
      · rintro ⟨hl, -⟩; exact absurd hl h2

theorem runCore_isOk (e : GeneEvidence) (kr : List (String × KmerData)) :
    (runCore e kr).isOk = (reportChunks e kr).isOk := by
  rw [runCore]
  rcases h : reportChunks e kr with _ | _ <;> simp [Except.isOk, Except.toBool]

/-! Concrete inputs used by the counterexamples and witnesses. -/

/-- Evidence whose classes give exactly `SCCmec_type_IV(2B)` with a single
subtyping gene containing no dash. -/
def eC1 : GeneEvidence :=
  { ccrAB_genes := ["ccrA2", "ccrB2"], ccrC_genes := [],
    mec_genes := ["mecA", "dmecR1", "IS1272"], subtyping_genes := ["sub"],
    mrsa_gene := "mecA" }

/-- One parsed k-mer record whose template name carries a subtype token. -/
def dataA : KmerData :=
  { Score := 10, ScoreStr := "10.0", Expected := "1", z := "2", p_value := "0.01",
    query_coverage := "90.0", template_coverage := "75.5", depth := "1.0",
    Kmers_in_Template := "100", Description := "d" }

/-- A one-hit homology mapping with subtype token `IVa`. -/
def krC1 : List (String × KmerData) := [("SCCmec_type_IV(2B)|IVa", dataA)]

/-- Same classes as `eC1` but two subtyping genes. -/
def eC2 : GeneEvidence :=
  { ccrAB_genes := ["ccrA2", "ccrB2"], ccrC_genes := [],
    mec_genes := ["mecA", "dmecR1", "IS1272"], subtyping_genes := ["sub-IVa", "sub-IVb"],
    mrsa_gene := "mecA" }

set_option maxRecDepth 8000 in
/-- C1 counterexample: a well-typed input (all sets are proper string sets,
the mapping a proper record mapping) on which the engine raises: the single
subtyping gene `sub` has no dash, so the subtype split indexing raises
`IndexError`. -/
theorem C1_counterexample_raises :
    runCore eC1 krC1 = Except.error "IndexError: list index out of range" := rfl

/-- C1 amended: the engine completes normally for every well-typed input
except exactly when the subtype-reconciliation block runs with a single
subtyping gene whose identifier contains no `-` (split on `-` yields fewer
than two segments); in that one case it raises `IndexError`. -/
theorem C1_amended_no_raise_iff (e : GeneEvidence) (kr : List (String × KmerData)) :
    (runCore e kr).isOk = false ↔
      (subtypeRan e kr = true ∧ e.subtyping_genes.length = 1 ∧
       (strSplit '-' (e.subtyping_genes.headD "")).length ≤ 1) := by
  rw [runCore_isOk]
  rcases h : sccmec_types e with _ | ⟨t, _ | ⟨t2, rest⟩⟩
  · rw [reportChunks_zero kr h]
    constructor
    · intro hc; simp [Except.isOk, Except.toBool] at hc
    · rintro ⟨hr, -⟩
      rw [subtypeRan, Bool.and_eq_true, perform_subtyping, Bool.and_eq_true, h] at hr
      simp at hr
  · rw [reportChunks_single kr h]
    by_cases hran : subtypeRan e kr = true
    · rw [if_pos hran]
      rcases hs : subtypeSection e.subtyping_genes t (kmer_subtype kr) with m | sub
      · have hiff := @subtypeSection_isOk_false_iff e.subtyping_genes t (kmer_subtype kr)
        rw [hs] at hiff
        simp [Except.isOk, Except.toBool] at hiff ⊢
        exact ⟨hran, hiff⟩
      · have hiff := @subtypeSection_isOk_false_iff e.subtyping_genes t (kmer_subtype kr)
        rw [hs] at hiff
        simp [Except.isOk, Except.toBool] at hiff ⊢
        intro _ hlen
        exact hiff hlen
    · rw [if_neg hran]
      constructor
      · intro hc; simp [Except.isOk, Except.toBool] at hc
      · rintro ⟨hr, -⟩; exact absurd hr hran
  · have hlen : 1 < (sccmec_types e).length := by rw [h]; simp
    rw [reportChunks_multi kr hlen]
    constructor
    · intro hc; simp [Except.isOk, Except.toBool] at hc
    · rintro ⟨hr, -⟩
      rw [subtypeRan, Bool.and_eq_true, perform_subtyping, Bool.and_eq_true, h] at hr
      simp at hr

/-- C1 amended witness: the engine completes on the same evidence as the
counterexample when the homology mapping yields no subtype token. -/
theorem C1_amended_no_raise_iff_witness : (runCore eC1 []).isOk = true := by
  have h := C1_amended_no_raise_iff eC1 []
  rcases hk : (runCore eC1 []).isOk with _ | _
  · exact absurd (h.mp hk) (by decide)
  · rfl

set_option maxHeartbeats 1000000 in
set_option maxRecDepth 8000 in
/-- C2 counterexample: evidence with exactly one SCCmec type from the
ambiguous set and two subtyping genes, but an empty homology mapping: the
`perform_subtyping` condition of the claim holds, yet the reconciliation
block does not run and no multiple-subtype alert is written. -/
theorem C2_counterexample_needs_kmer_subtype :
    sccmec_types eC2 = ["SCCmec_type_IV(2B)"] ∧
    perform_subtyping eC2 = true ∧
    subtypeRan eC2 [] = false ∧
    (reportChunks eC2 []).toOption.map
      (fun cs => decide ("Alert! Multiple subtype target genes detected.\n" ∈ cs)) =
      some false := by
  exact ⟨by decide, by decide, by decide, by decide⟩

set_option maxHeartbeats 1000000 in
/-- C2 amended: the subtype-reconciliation block runs exactly when the typer
returned exactly one type, that type is in the ambiguous-subtype set, and
the top homology hit yields a non-empty subtype token; whenever it runs
with more than one subtyping gene the report contains the multiple-subtype
alert and the block emits only that alert (no gene-based subtype line). -/
theorem C2_amended_subtyping_guard (e : GeneEvidence) (kr : List (String × KmerData)) :
    (subtypeRan e kr = true ↔
      ((∃ t, sccmec_types e = [t] ∧
          t ∈ ["SCCmec_type_IV(2B)", "SCCmec_type_V(5C2&5)", "SCCmec_type_V(5C2)"]) ∧
        kmer_subtype kr ≠ "")) ∧
    (subtypeRan e kr = true → 1 < e.subtyping_genes.length →
      ∃ cs, reportChunks e kr = Except.ok cs ∧
        "Alert! Multiple subtype target genes detected.\n" ∈ cs ∧
        subtypeSection e.subtyping_genes ((sccmec_types e).headD "") (kmer_subtype kr) =
          Except.ok ["Alert! Multiple subtype target genes detected.\n"]) := by
  have hiff : subtypeRan e kr = true ↔
      ((∃ t, sccmec_types e = [t] ∧
          t ∈ ["SCCmec_type_IV(2B)", "SCCmec_type_V(5C2&5)", "SCCmec_type_V(5C2)"]) ∧
        kmer_subtype kr ≠ "") := by
    constructor
    · intro hr
      rw [subtypeRan, Bool.and_eq_true, perform_subtyping, Bool.and_eq_true] at hr
      obtain ⟨⟨hlen, hmem⟩, hks⟩ := hr
      obtain ⟨t, ht⟩ := List.length_eq_one.mp (by simpa only [beq_iff_eq] using hlen)
      refine ⟨⟨t, ht, ?_⟩, ?_⟩
      · have hm := of_decide_eq_true hmem
        rw [ht] at hm
        simpa using hm
      · intro hc
        rw [hc] at hks
        simp at hks
    · rintro ⟨⟨t, ht, hmem⟩, hks⟩
      rw [subtypeRan, Bool.and_eq_true, perform_subtyping, Bool.and_eq_true]
      refine ⟨⟨by rw [ht]; rfl, ?_⟩, by simp [hks]⟩
      rw [ht]
      exact decide_eq_true (by simpa using hmem)
  refine ⟨hiff, ?_⟩
  intro hr hlen
  obtain ⟨⟨t, ht, -⟩, -⟩ := hiff.mp hr
  rw [reportChunks_single kr ht, if_pos hr, subtypeSection_multi hlen]
  refine ⟨mrsaChunks e ++ ["Alert! Multiple subtype target genes detected.\n"] ++
    singleTypeChunks e kr t, rfl, by simp, ?_⟩
  rw [ht]
  exact subtypeSection_multi hlen

set_option maxHeartbeats 1000000 in
set_option maxRecDepth 8000 in
/-- C2 amended witness: on the two-subtyping-gene evidence with a homology
hit carrying subtype token `IVa`, the block runs and the report carries the
multiple-subtype alert. -/
theorem C2_amended_subtyping_guard_witness :
    ∃ cs, reportChunks eC2 krC1 = Except.ok cs ∧
      "Alert! Multiple subtype target genes detected.\n" ∈ cs ∧
      subtypeSection eC2.subtyping_genes ((sccmec_types eC2).headD "") (kmer_subtype krC1) =
        Except.ok ["Alert! Multiple subtype target genes detected.\n"] :=
  (C2_amended_subtyping_guard eC2 krC1).2 (by decide) (by decide)

/-- C7: the two set-difference directions are asymmetric as designed: in the
single-type branch the additional complexes and additional genes are the
detected sets minus the resolved reference sets and their sections appear in
the report exactly when non-empty, while in the zero-type branch the missing
genes are the best reference set minus the detected total gene set. -/
theorem C7_diff_directions (e : GeneEvidence) (kr : List (String × KmerData)) :
    (∀ t x, x ∈ additional_complexes e t ↔
      (x ∈ all_classes e ∧ x ∉ tableGet SCCMEC_CLASSES t)) ∧
    (∀ t x, x ∈ additional_genes e t ↔
      (x ∈ total_genes e ∧ x ∉ tableGet SCCMEC_DEFINITIONS t)) ∧
    (∀ n x, x ∈ missing_genes e n ↔
      (x ∈ tableGet SCCMEC_DEFINITIONS ((strSplit '|' n).headD n) ∧ x ∉ total_genes e)) ∧
    (∀ t, (additionalComplexesSection e t = [] ↔ additional_complexes e t = []) ∧
      (additionalGenesSection e t = [] ↔ additional_genes e t = []) ∧
      (missingGenesSection e t = [] ↔ missing_genes e t = [])) ∧
    (∀ t cs, sccmec_types e = [t] → reportChunks e kr = Except.ok cs →
      (additional_complexes e t ≠ [] →
        "\nAdditional complexes found:\n" ∈ cs ∧
        joinSep "\n" (additional_complexes e t) ++ "\n" ∈ cs) ∧
      (additional_genes e t ≠ [] →
        "\nAdditional genes found:\n" ∈ cs ∧
        joinSep "\n" (additional_genes e t) ++ "\n" ∈ cs)) ∧
    (∀ n d tl cs, sccmec_types e = [] → kmer_hits kr = (n, d) :: tl →
      reportChunks e kr = Except.ok cs → missing_genes e n ≠ [] →
        "\nMissing genes for this cassette:\n" ∈ cs ∧
        joinSep "\n" (missing_genes e n) ++ "\n" ∈ cs) := by
  refine ⟨?_, ?_, ?_, ?_, ?_, ?_⟩
  · intro t x
    simp [additional_complexes, listDiff, List.mem_filter]
  · intro t x
    simp [additional_genes, listDiff, List.mem_filter]
  · intro n x
    simp [missing_genes, listDiff, List.mem_filter]
  · intro t
    refine ⟨?_, ?_, ?_⟩
    · rw [additionalComplexesSection]
      split <;> simp_all
    · rw [additionalGenesSection]
      split <;> simp_all
    · rw [missingGenesSection]
      split <;> simp_all
  · intro t cs ht hok
    rw [reportChunks_single kr ht] at hok
    rcases hs : (if subtypeRan e kr then subtypeSection e.subtyping_genes t (kmer_subtype kr)
        else Except.ok []) with m | sub
    · rw [hs] at hok
      cases hok
    · rw [hs] at hok
      simp only [Except.ok.injEq] at hok
      subst hok
      constructor
      · intro hne
        constructor <;>
          simp [singleTypeChunks, additionalComplexesSection, hne]
      · intro hne
        constructor <;>
          simp [singleTypeChunks, additionalGenesSection, hne]
  · intro n d tl cs ht hk hok hne
    rw [reportChunks_zero kr ht] at hok
    simp only [Except.ok.injEq] at hok
    subst hok
    constructor <;>
      simp [zeroTypeChunks, hk, missingGenesSection, hne]

/-- Evidence with the full type II(2A) definition plus two extra mec-region
genes, in one list order. -/
def eC9a : GeneEvidence :=
  { ccrAB_genes := ["ccrA2", "ccrB2"], ccrC_genes := [],
    mec_genes := ["mecA", "mecR1", "mecI", "mecX", "mecY"], subtyping_genes := [],
    mrsa_gene := "mecA" }

/-- The same evidence sets as `eC9a` with the two extra genes enumerated in
the opposite order. -/
def eC9b : GeneEvidence :=
  { ccrAB_genes := ["ccrA2", "ccrB2"], ccrC_genes := [],
    mec_genes := ["mecA", "mecR1", "mecI", "mecY", "mecX"], subtyping_genes := [],
    mrsa_gene := "mecA" }

set_option maxHeartbeats 1000000 in
set_option maxRecDepth 8000 in
/-- C7 witness: the single-type branch on `eC9a` lists the additional genes
`detected minus reference`, and the zero-type branch on empty evidence with
one homology hit lists the missing genes `reference minus detected`. -/
theorem C7_diff_directions_witness :
    ("\nAdditional genes found:\n" ∈
        ["The input organism was predicted as a MRSA isolate\nThe mecA gene was detected\n\n",
         "Prediction based on genes: SCCmec_type_II(2A)\n", "\nAdditional genes found:\n",
         "mecX\nmecY\n"] ∧
      joinSep "\n" (additional_genes eC9a "SCCmec_type_II(2A)") ++ "\n" ∈
        ["The input organism was predicted as a MRSA isolate\nThe mecA gene was detected\n\n",
         "Prediction based on genes: SCCmec_type_II(2A)\n", "\nAdditional genes found:\n",
         "mecX\nmecY\n"]) ∧
    ("\nMissing genes for this cassette:\n" ∈
        ["The input organism was predicted as a MSSA isolate\nThe mecA/mecC gene was not detected\n\n",
         "No SCCmec element was detected\n",
         "\nBest homology match: SCCmec_type_IV(2B)|IVa (75.5% coverage)\n",
         "\nMissing genes for this cassette:\n", "ccrA2\nccrB2\nmecA\ndmecR1\nIS1272\n"] ∧
      joinSep "\n" (missing_genes emptyEvidence "SCCmec_type_IV(2B)|IVa") ++ "\n" ∈
        ["The input organism was predicted as a MSSA isolate\nThe mecA/mecC gene was not detected\n\n",
         "No SCCmec element was detected\n",
         "\nBest homology match: SCCmec_type_IV(2B)|IVa (75.5% coverage)\n",
         "\nMissing genes for this cassette:\n", "ccrA2\nccrB2\nmecA\ndmecR1\nIS1272\n"]) :=
  ⟨((C7_diff_directions eC9a []).2.2.2.2.1 "SCCmec_type_II(2A)" _ (by decide) (by rfl)).2
      (by decide),
   (C7_diff_directions emptyEvidence krC1).2.2.2.2.2 "SCCmec_type_IV(2B)|IVa" dataA [] _
      (by decide) (by rfl) (by rfl) (by decide)⟩

set_option maxHeartbeats 1000000 in
set_option maxRecDepth 8000 in
/-- C9 counterexample: two runs on equal input sets (every evidence field
equal as a set, the identical empty homology mapping) whose reports are not
byte-identical: the joined additional-genes section follows the unspecified
set-iteration order, which Python does not fix across runs. -/
theorem C9_counterexample_set_order :
    eC9a.ccrAB_genes.Perm eC9b.ccrAB_genes ∧
    eC9a.ccrC_genes.Perm eC9b.ccrC_genes ∧
    eC9a.mec_genes.Perm eC9b.mec_genes ∧
    eC9a.subtyping_genes.Perm eC9b.subtyping_genes ∧
    eC9a.mrsa_gene = eC9b.mrsa_gene ∧
    fullReport eC9a [] ≠ fullReport eC9b [] := by
  refine ⟨by decide, by decide, by decide, by decide, rfl, ?_⟩
  intro h
  have hne : (fullReport eC9a []).toOption ≠ (fullReport eC9b []).toOption := by decide
  exact hne (by rw [h])

/-- C9 amended: the classification outcome (the complex-class lists and the
SCCmec type list) is invariant under any re-enumeration of the evidence
sets, and the full report text is byte-identical whenever the evidence is
identical including its enumeration order; byte-identity from set equality
alone fails only in the joined set sections. -/
theorem C9_amended_determinism (e1 e2 : GeneEvidence) (kr : List (String × KmerData))
    (hAB : e1.ccrAB_genes.Perm e2.ccrAB_genes) (hC : e1.ccrC_genes.Perm e2.ccrC_genes)
    (hM : e1.mec_genes.Perm e2.mec_genes) :
    ccr_classes e1 = ccr_classes e2 ∧ mec_classes e1 = mec_classes e2 ∧
    all_classes e1 = all_classes e2 ∧ sccmec_types e1 = sccmec_types e2 ∧
    (e1 = e2 → fullReport e1 kr = fullReport e2 kr) := by
  have h1 : ccr_classes e1 = ccr_classes e2 := by
    rw [ccr_classes, ccr_classes, perform_ccr_gene_complex_typing,
      perform_ccr_gene_complex_typing]
    simp only [hAB.mem_iff, hC.mem_iff]
  have h2 : mec_classes e1 = mec_classes e2 := by
    rw [mec_classes, mec_classes, perform_mec_gene_complex_typing,
      perform_mec_gene_complex_typing]
    simp only [hM.mem_iff]
  have h3 : all_classes e1 = all_classes e2 := by
    rw [all_classes, all_classes, h1, h2]
  refine ⟨h1, h2, h3, ?_, ?_⟩
  · rw [sccmec_types, sccmec_types, h3]
  · intro h; rw [h]

/-- C9 amended witness: the permuted evidence pair yields the same type
list. -/
theorem C9_amended_determinism_witness :
    sccmec_types eC9a = sccmec_types eC9b :=
  (C9_amended_determinism eC9a eC9b [] (by decide) (by decide) (by decide)).2.2.2.1

end SCCmecFinder
